import Mathlib

/-!
Verification of the analytics core of the Mutual-Fund dashboard
(`mftool1.py`): summary annualized returns, financial metrics
(Sharpe ratio, Alpha, downside risk), SIP and lumpsum compounding
calculators, and the per-row detailed annual-return columns.

Python floats are modelled as real numbers; pandas `NaN` entries are
modelled as `none : Option ℝ`; a Python exception that escapes or is
caught by a surrounding `try/except` is modelled as `Except.error`.
-/

namespace MFTool

noncomputable section

/-- Two-decimal rounding, modelling Python's `round(x, 2)` at the
gain-reporting boundary.  Python rounds half to even; this model rounds
half up, which agrees with Python at every non-tie value (all values
appearing in the development are non-ties). -/
def round2 (x : ℝ) : ℝ := (⌊x * 100 + 1/2⌋ : ℤ) / 100

/-- Result of one calculator invocation: amount invested, final amount,
and reported gain. -/
structure CompoundingResult where
  invested : ℝ
  final : ℝ
  gain : ℝ

/-- SIP calculator, standard mode (`analysis_tabs[2]`, checkbox off):
`monthly_rate = rate_of_return / 12 / 100`, `months = duration * 12`,
`invested_value = sip_amount * months`,
`future_value = sip_amount * ((((1 + monthly_rate) ** months) - 1) * (1 + monthly_rate)) / monthly_rate`,
`gain = round(future_value - invested_value, 2)`. -/
def sipStandard (C r : ℝ) (y : ℕ) : CompoundingResult :=
  let monthly_rate := r / 12 / 100
  let months := y * 12
  let invested_value := C * months
  let future_value := C * (((1 + monthly_rate) ^ months - 1) * (1 + monthly_rate)) / monthly_rate
  { invested := invested_value, final := future_value,
    gain := round2 (future_value - invested_value) }

/-- SIP calculator, inflation-adjusted mode (`analysis_tabs[2]`, checkbox
on): `monthly_rate = (rate_of_return - 6) / 12 / 100`; when the monthly
rate is zero the Python division `... / monthly_rate` raises
`ZeroDivisionError`, which the surrounding `try/except` catches and
reports as a warning — modelled as `Except.error ()`. -/
def sipAdjusted (C r : ℝ) (y : ℕ) : Except Unit CompoundingResult :=
  let monthly_rate := (r - 6) / 12 / 100
  let months := y * 12
  if monthly_rate = 0 then Except.error ()
  else
    let invested_value := C * months
    let future_value := C * (((1 + monthly_rate) ^ months - 1) * (1 + monthly_rate)) / monthly_rate
    Except.ok { invested := invested_value, final := future_value,
                gain := round2 (future_value - invested_value) }

/-- Lumpsum calculator, standard mode (`analysis_tabs[3]`):
`cagr = lumpsum_amount * pow(1 + lumpsum_rate_of_return / 100, lumpsum_duration)`,
`gain = round(cagr - lumpsum_amount, 2)`. -/
def lumpsumStandard (P r : ℝ) (y : ℕ) : CompoundingResult :=
  let cagr := P * (1 + r / 100) ^ y
  { invested := P, final := cagr, gain := round2 (cagr - P) }

/-- Lumpsum calculator, inflation-adjusted mode (`analysis_tabs[3]`,
checkbox on): `cagr_after_inflation = lumpsum_amount * pow(1 + (lumpsum_rate_of_return - 6) / 100, lumpsum_duration)`. -/
def lumpsumAdjusted (P r : ℝ) (y : ℕ) : CompoundingResult :=
  let cagr := P * (1 + (r - 6) / 100) ^ y
  { invested := P, final := cagr, gain := round2 (cagr - P) }

/-- Model of pandas `Series.shift(n)`: entry `i` of the shifted series is entry
`i - n` of the original when `i ≥ n`, and `NaN` (`none`) otherwise.
The length is unchanged. -/
def shiftO (xs : List (Option ℝ)) (n : ℕ) : List (Option ℝ) :=
  List.ofFn fun i : Fin xs.length =>
    if n ≤ (i : ℕ) then
      xs.get ⟨(i : ℕ) - n, Nat.lt_of_le_of_lt (Nat.sub_le _ _) i.2⟩
    else none

/-- Elementwise combination of two aligned pandas Series: `NaN`
propagates from either operand. -/
def seriesZip (f : ℝ → ℝ → ℝ) (a b : List (Option ℝ)) : List (Option ℝ) :=
  List.ofFn fun i : Fin (min a.length b.length) =>
    (a.get ⟨i, lt_of_lt_of_le i.2 (Nat.min_le_left _ _)⟩).bind fun x =>
      (b.get ⟨i, lt_of_lt_of_le i.2 (Nat.min_le_right _ _)⟩).map fun y => f x y

/-- Inner `calculate_returns` of `calculate_annualized_returns`
(lines 37-41): `(((latest_value / series.shift(n)) - 1) * 100)` when
`n == 250`, else `(((latest_value / series.shift(n)) ** (1 / (n / 250))) - 1) * 100`,
where `latest_value` is a scalar broadcast over the shifted series. -/
def summaryCalcReturns (latest : ℝ) (vals : List ℝ) (n : ℕ) : List (Option ℝ) :=
  if n = 250 then
    (shiftO (vals.map some) n).map (Option.map fun v => (latest / v - 1) * 100)
  else
    (shiftO (vals.map some) n).map
      (Option.map fun v => ((latest / v) ^ ((1 : ℝ) / ((n : ℝ) / 250)) - 1) * 100)

/-- Model of pandas `.iloc[-1]` on an Option-valued series, collapsing a `NaN`
last entry and the empty series to `none`. -/
def lastEntry (xs : List (Option ℝ)) : Option ℝ := xs.getLast?.join

/-- The five fixed summary windows of `calculate_annualized_returns`
(line 43). -/
def annualizedPeriods : List (String × ℕ) :=
  [("1 Year", 250), ("2 Years", 500), ("3 Years", 750), ("5 Years", 1250), ("10 Years", 2500)]

/-- Model of `calculate_annualized_returns` (lines 36-48): for each named window
it evaluates the inner `calculate_returns` at the latest value of the
series and takes `.iloc[-1]` of the resulting series. -/
def calculate_annualized_returns (vals : List ℝ) : List (String × Option ℝ) :=
  annualizedPeriods.map fun p =>
    (p.1 ++ " Return", lastEntry (summaryCalcReturns (vals.getLastD 0) vals p.2))

/-- Per-row `calculate_returns1` (lines 94-95):
`(((latest_nav / nav_series.shift(n))) - 1) * 100`, elementwise over two
aligned series. -/
def calcReturns1Row (latest series : List (Option ℝ)) (n : ℕ) : List (Option ℝ) :=
  seriesZip (fun a b => (a / b - 1) * 100) latest (shiftO series n)

/-- Per-row `calculate_returns` (lines 97-98):
`(((latest_nav / nav_series.shift(n)) ** (1 / n)) - 1) * 100`,
elementwise over two aligned series. -/
def calcReturnsRow (latest series : List (Option ℝ)) (n : ℕ) : List (Option ℝ) :=
  seriesZip (fun a b => ((a / b) ^ ((1 : ℝ) / (n : ℝ)) - 1) * 100) latest (shiftO series n)

/-- Detailed annual-returns column for `k ∈ {2,3,5,10}` (lines 384-387):
`calculate_returns(nav_df["nav"], nav_df["nav"].shift(250 * k), k)`.
Note the argument series is already shifted by `250 * k` and
`calculate_returns` shifts it by `k` again. -/
def detailedYearCol (vals : List ℝ) (k : ℕ) : List (Option ℝ) :=
  calcReturnsRow (vals.map some) (shiftO (vals.map some) (250 * k)) k

/-- Detailed 1-year column (line 383):
`calculate_returns1(nav_df["nav"], nav_df["nav"], 250)`. -/
def detailedOneYearCol (vals : List ℝ) : List (Option ℝ) :=
  calcReturns1Row (vals.map some) (vals.map some) 250

/-- Model of `np.mean`. -/
def mean (xs : List ℝ) : ℝ := xs.sum / xs.length

/-- Model of `np.std`: population variance. -/
def popVar (xs : List ℝ) : ℝ := ((xs.map fun x => (x - mean xs) ^ 2).sum) / xs.length

/-- Model of `np.std`: population standard deviation. -/
def popStd (xs : List ℝ) : ℝ := Real.sqrt (popVar xs)

/-- Slope of `scipy.stats.linregress(x, y)`: the ordinary-least-squares
slope `Σ (x_i - x̄)(y_i - ȳ) / Σ (x_i - x̄)²` (scipy divides both sums
by `n`, which cancels in the quotient). -/
def olsSlope (x y : List ℝ) : ℝ :=
  (((x.zip y).map fun p => (p.1 - mean x) * (p.2 - mean y)).sum) /
    ((x.map fun t => (t - mean x) ^ 2).sum)

/-- Constant `RISK_FREE_RATE = 6.7` (line 14). -/
def RISK_FREE_RATE : ℝ := 6.7

/-- The record built by `calculate_financial_metrics` (lines 69-76). -/
structure FinMetrics where
  averageReturnPct : ℝ
  benchmarkReturnPct : ℝ
  averageRisk : ℝ
  downsideRisk : ℝ
  sharpe : Option ℝ
  alpha : ℝ

/-- Model of `calculate_financial_metrics` (lines 51-78) on numerically valid
(no-NaN) percentage return sets.  The `np.nan` produced for a zero
average risk is modelled as `none`. -/
def calculate_financial_metrics (fund bench : List ℝ) : FinMetrics :=
  let annual_returns := fund.map fun x => x / 100
  let benchmark_annual_returns := bench.map fun x => x / 100
  let risk_free_rate_decimal := RISK_FREE_RATE / 100
  let average_return := mean annual_returns
  let benchmark_return := mean benchmark_annual_returns
  let average_risk := popStd annual_returns
  let negative_returns := annual_returns.filter fun x => decide (x < 0)
  let downside_risk := if 0 < negative_returns.length then popStd negative_returns else 0
  let sharpe : Option ℝ :=
    if average_risk ≠ 0 then some ((average_return - risk_free_rate_decimal) / average_risk)
    else none
  let slope := olsSlope benchmark_annual_returns annual_returns
  let alpha := average_return - benchmark_return * slope
  { averageReturnPct := average_return * 100, benchmarkReturnPct := benchmark_return * 100,
    averageRisk := average_risk, downsideRisk := downside_risk,
    sharpe := sharpe, alpha := alpha }

/-- Model of `np.mean` over a possibly-NaN array: `NaN` (and the empty array's
mean) is `none`; otherwise the mean of the values. -/
def nanMean (xs : List (Option ℝ)) : Option ℝ :=
  if xs ≠ [] ∧ none ∉ xs then some (mean xs.reduceOption) else none

/-- Model of `np.std` over a possibly-NaN array, with the same NaN policy. -/
def nanStd (xs : List (Option ℝ)) : Option ℝ :=
  if xs ≠ [] ∧ none ∉ xs then some (popStd xs.reduceOption) else none

/-- Slope of `scipy.stats.linregress(x, y)` on possibly-NaN input:
raises `ValueError` (`Except.error`) when the lengths differ, when the
input is empty, or when all `x` values are valid, identical and there
are at least two of them; yields a `NaN` slope when either array holds
a `NaN` or there is a single point (0/0); otherwise the OLS slope. -/
def linregressSlope (x y : List (Option ℝ)) : Except Unit (Option ℝ) :=
  if x.length ≠ y.length then Except.error ()
  else if x.length = 0 then Except.error ()
  else if none ∉ x ∧ 1 < x.length ∧ ∀ a ∈ x.reduceOption, ∀ b ∈ x.reduceOption, a = b then
    Except.error ()
  else if none ∈ x ∨ none ∈ y ∨ x.length = 1 then Except.ok none
  else Except.ok (some (olsSlope x.reduceOption y.reduceOption))

/-- The metrics record with possibly-undefined (NaN) fields. -/
structure NanMetrics where
  averageReturnPct : Option ℝ
  benchmarkReturnPct : Option ℝ
  averageRisk : Option ℝ
  downsideRisk : Option ℝ
  sharpe : Option ℝ
  alpha : Option ℝ

/-- Model of `calculate_financial_metrics` (lines 51-78) on possibly-NaN input
return sets (the shape actually fed to it by the dashboard, where
windows exceeding the available history are NaN).  NaN values are
`none`; the uncaught `ValueError` that `scipy.stats.linregress` raises
on mismatched lengths (or degenerate x) makes the whole computation
fail, modelled as `Except.error ()`.  Note `annual_returns < 0` drops
NaNs (a NaN comparison is False), and `NaN != 0` is True so a NaN
average risk flows into the Sharpe quotient as NaN. -/
def calculate_financial_metrics_opt (fund bench : List (Option ℝ)) :
    Except Unit NanMetrics :=
  let r := fund.map (Option.map fun v => v / 100)
  let b := bench.map (Option.map fun v => v / 100)
  let average_return := nanMean r
  let benchmark_return := nanMean b
  let average_risk := nanStd r
  let negative_returns := r.reduceOption.filter fun v => decide (v < 0)
  let downside_risk : Option ℝ :=
    if 0 < negative_returns.length then some (popStd negative_returns) else some 0
  let sharpe : Option ℝ :=
    match average_risk, average_return with
    | some sd, some a => if sd = 0 then none else some ((a - RISK_FREE_RATE / 100) / sd)
    | some _, none => none
    | none, _ => none
  match linregressSlope b r with
  | Except.error e => Except.error e
  | Except.ok slope =>
      Except.ok
        { averageReturnPct := average_return.map fun a => a * 100,
          benchmarkReturnPct := benchmark_return.map fun a => a * 100,
          averageRisk := average_risk, downsideRisk := downside_risk,
          sharpe := sharpe,
          alpha := average_return.bind fun a =>
            benchmark_return.bind fun m => slope.map fun s => a - m * s }

/-- Number of index positions where both return sets hold a valid
(non-NaN) value. -/
def validPairs (a b : List (Option ℝ)) : ℕ :=
  ((a.zip b).filter fun p => p.1.isSome && p.2.isSome).length

/-- Concrete 501-row NAV series realising the spec scenario "values
[100, 110, 121] at days [0, 250, 500]": rows 0-249 hold 100, rows
250-499 hold 110, row 500 holds 121. -/
def testSeries : List ℝ :=
  List.ofFn fun i : Fin 501 => if (i : ℕ) < 250 then 100 else if (i : ℕ) < 500 then 110 else 121

/-- Evaluation rule: `round2 x` is `z / 100` as soon as `z` brackets `x * 100 + 1/2`. -/
lemma round2_eq_div (x : ℝ) (z : ℤ) (h1 : (z : ℝ) ≤ x * 100 + 1/2)
    (h2 : x * 100 + 1/2 < z + 1) : round2 x = z / 100 := by
  unfold round2
  rw [show ⌊x * 100 + 1/2⌋ = z from Int.floor_eq_iff.mpr ⟨h1, h2⟩]

lemma shiftO_length (xs : List (Option ℝ)) (n : ℕ) :
    (shiftO xs n).length = xs.length := by
  unfold shiftO
  exact List.length_ofFn _

lemma shiftO_getElem? (xs : List (Option ℝ)) (n i : ℕ) :
    (shiftO xs n)[i]? =
      if i < xs.length then some (if n ≤ i then xs.getD (i - n) none else none)
      else none := by
  unfold shiftO
  rw [List.getElem?_ofFn]
  by_cases h : i < xs.length
  · rw [List.ofFnNthVal, dif_pos h, if_pos h]
    by_cases hn : n ≤ i
    · rw [if_pos hn, if_pos hn, List.get_eq_getElem, List.getD_eq_getElem?_getD,
        List.getElem?_eq_getElem (Nat.lt_of_le_of_lt (Nat.sub_le _ _) h)]
      rfl
    · rw [if_neg hn, if_neg hn]
  · rw [List.ofFnNthVal, dif_neg h, if_neg h]

lemma shiftO_getD (xs : List (Option ℝ)) (n i : ℕ) (h : i < xs.length) :
    (shiftO xs n).getD i none = if n ≤ i then xs.getD (i - n) none else none := by
  rw [List.getD_eq_getElem?_getD, shiftO_getElem?, if_pos h]
  rfl

lemma mapSome_getD (vals : List ℝ) (i : ℕ) (h : i < vals.length) :
    (vals.map some).getD i none = some (vals.getD i 0) := by
  rw [List.getD_eq_getElem?_getD, List.getElem?_map,
    List.getElem?_eq_getElem h, List.getD_eq_getElem?_getD,
    List.getElem?_eq_getElem h]
  rfl

lemma seriesZip_getElem? (f : ℝ → ℝ → ℝ) (a b : List (Option ℝ)) (i : ℕ) :
    (seriesZip f a b)[i]? =
      if i < min a.length b.length then
        some ((a.getD i none).bind fun x => (b.getD i none).map fun y => f x y)
      else none := by
  unfold seriesZip
  rw [List.getElem?_ofFn]
  by_cases h : i < min a.length b.length
  · rw [List.ofFnNthVal, dif_pos h, if_pos h, List.get_eq_getElem, List.get_eq_getElem,
      List.getD_eq_getElem?_getD, List.getD_eq_getElem?_getD,
      List.getElem?_eq_getElem (lt_of_lt_of_le h (Nat.min_le_left _ _)),
      List.getElem?_eq_getElem (lt_of_lt_of_le h (Nat.min_le_right _ _))]
    rfl
  · rw [List.ofFnNthVal, dif_neg h, if_neg h]

lemma lastEntry_shift_map (g : ℝ → ℝ) (vals : List ℝ) (n : ℕ) :
    lastEntry ((shiftO (vals.map some) n).map (Option.map g)) =
      if n + 1 ≤ vals.length then some (g (vals.getD (vals.length - 1 - n) 0))
      else none := by
  unfold lastEntry
  rw [List.getLast?_eq_getElem?, List.getElem?_map, List.length_map, shiftO_length,
    List.length_map, shiftO_getElem?, List.length_map]
  rcases Nat.eq_zero_or_pos vals.length with hL | hL
  · rw [hL]
    simp
  · rw [if_pos (by omega : vals.length - 1 < vals.length)]
    by_cases hn : n + 1 ≤ vals.length
    · rw [if_pos (by omega : n ≤ vals.length - 1), if_pos hn,
        mapSome_getD _ _ (by omega)]
      rfl
    · rw [if_neg (by omega : ¬ n ≤ vals.length - 1), if_neg hn]
      rfl

/-- Closed form of a single summary-window entry: `NaN` when the series
has at most `n` points, else the formula applied to the value `n` rows
before the last. -/
lemma lastEntry_summary (latest : ℝ) (vals : List ℝ) (n : ℕ) :
    lastEntry (summaryCalcReturns latest vals n) =
      if n + 1 ≤ vals.length then
        some (if n = 250 then (latest / vals.getD (vals.length - 1 - n) 0 - 1) * 100
          else ((latest / vals.getD (vals.length - 1 - n) 0) ^ ((1 : ℝ) / ((n : ℝ) / 250)) - 1)
            * 100)
      else none := by
  unfold summaryCalcReturns
  by_cases h : n = 250
  · rw [if_pos h, lastEntry_shift_map]
    by_cases hn : n + 1 ≤ vals.length
    · rw [if_pos hn, if_pos hn, if_pos h]
    · rw [if_neg hn, if_neg hn]
  · rw [if_neg h, lastEntry_shift_map]
    by_cases hn : n + 1 ≤ vals.length
    · rw [if_pos hn, if_pos hn, if_neg h]
    · rw [if_neg hn, if_neg hn]

lemma testSeries_length : testSeries.length = 501 := by
  unfold testSeries
  exact List.length_ofFn _

lemma testSeries_getD (i : ℕ) (h : i < 501) :
    testSeries.getD i 0 = if i < 250 then 100 else if i < 500 then 110 else 121 := by
  unfold testSeries
  rw [List.getD_eq_getElem?_getD, List.getElem?_ofFn, List.ofFnNthVal, dif_pos h]
  rfl

lemma testSeries_getElem (i : ℕ) (h : i < testSeries.length) :
    testSeries[i] = if i < 250 then 100 else if i < 500 then 110 else 121 := by
  unfold testSeries
  rw [List.getElem_ofFn]

lemma testSeries_getLast? : testSeries.getLast? = some 121 := by
  rw [List.getLast?_eq_getElem?, testSeries_length,
    List.getElem?_eq_getElem (by rw [testSeries_length]; norm_num : 501 - 1 < testSeries.length),
    testSeries_getElem _ (by rw [testSeries_length]; norm_num)]
  norm_num

lemma testSeries_getLastD : testSeries.getLastD 0 = 121 := by
  rw [List.getLastD_eq_getLast?, testSeries_getLast?]
  rfl

/-- C1: for a series with at least N+1 points, the summary table holds,
under the window's label, `((latest / value_N_rows_earlier) - 1) * 100`
when N = 250 and `((latest / value_N_rows_earlier) ^ (250/N) - 1) * 100`
for the larger windows, for each of the five fixed windows. -/
theorem spec_C1_summary_returns : ∀ (vals : List ℝ) (label : String) (d : ℕ),
    (label, d) ∈ annualizedPeriods → d + 1 ≤ vals.length →
    (label ++ " Return",
        some (if d = 250 then (vals.getLastD 0 / vals.getD (vals.length - 1 - d) 0 - 1) * 100
          else ((vals.getLastD 0 / vals.getD (vals.length - 1 - d) 0) ^ ((250 : ℝ) / (d : ℝ))
            - 1) * 100))
      ∈ calculate_annualized_returns vals := by
  intro vals label d hmem hlen
  refine List.mem_map.mpr ⟨(label, d), hmem, ?_⟩
  simp only
  rw [lastEntry_summary, if_pos hlen, one_div_div]

/-- C1 witness: on the 501-row series realising the spec scenario, the
1-year window yields exactly 10 and the 2-year window yields
`((121/100)^(1/2) - 1) * 100`. -/
theorem spec_C1_summary_returns_witness :
    ("1 Year Return", some (10 : ℝ)) ∈ calculate_annualized_returns testSeries ∧
    ("2 Years Return", some ((((121 : ℝ) / 100) ^ ((1 : ℝ) / 2) - 1) * 100)) ∈
      calculate_annualized_returns testSeries := by
  constructor
  · have h := spec_C1_summary_returns testSeries "1 Year" 250
      (by simp [annualizedPeriods]) (by rw [testSeries_length]; norm_num)
    have e : (if (250 : ℕ) = 250 then
          (testSeries.getLastD 0 / testSeries.getD (testSeries.length - 1 - 250) 0 - 1) * 100
        else ((testSeries.getLastD 0 / testSeries.getD (testSeries.length - 1 - 250) 0) ^
          ((250 : ℝ) / ((250 : ℕ) : ℝ)) - 1) * 100) = (10 : ℝ) := by
      norm_num [testSeries_length, testSeries_getLast?, testSeries_getElem,
        List.getLastD_eq_getLast?]
    rw [← e]
    exact h
  · have h := spec_C1_summary_returns testSeries "2 Years" 500
      (by simp [annualizedPeriods]) (by rw [testSeries_length])
    have e : (if (500 : ℕ) = 250 then
          (testSeries.getLastD 0 / testSeries.getD (testSeries.length - 1 - 500) 0 - 1) * 100
        else ((testSeries.getLastD 0 / testSeries.getD (testSeries.length - 1 - 500) 0) ^
          ((250 : ℝ) / ((500 : ℕ) : ℝ)) - 1) * 100)
        = (((121 : ℝ) / 100) ^ ((1 : ℝ) / 2) - 1) * 100 := by
      rw [if_neg (by norm_num)]
      norm_num [testSeries_length, testSeries_getLast?, testSeries_getElem,
        List.getLastD_eq_getLast?]
    rw [← e]
    exact h

/-- C5: a window whose trading-day count d exceeds the available history
(series length ≤ d) produces an undefined (`none`) entry rather than
aborting — the table still holds an entry for it — while every window
with at least d+1 points still holds a computed value. -/
theorem spec_C5_insufficient_window : ∀ (vals : List ℝ) (label : String) (d : ℕ),
    (label, d) ∈ annualizedPeriods →
    (vals.length ≤ d →
      (label ++ " Return", (none : Option ℝ)) ∈ calculate_annualized_returns vals) ∧
    (d + 1 ≤ vals.length →
      ∃ x : ℝ, (label ++ " Return", some x) ∈ calculate_annualized_returns vals) := by
  intro vals label d hmem
  constructor
  · intro hle
    refine List.mem_map.mpr ⟨(label, d), hmem, ?_⟩
    simp only
    rw [lastEntry_summary, if_neg (by omega)]
  · intro hlen
    refine ⟨if d = 250 then (vals.getLastD 0 / vals.getD (vals.length - 1 - d) 0 - 1) * 100
        else ((vals.getLastD 0 / vals.getD (vals.length - 1 - d) 0) ^ ((1 : ℝ) / ((d : ℝ) / 250))
          - 1) * 100,
      List.mem_map.mpr ⟨(label, d), hmem, ?_⟩⟩
    simp only
    rw [lastEntry_summary, if_pos hlen]

/-- C5 witness: a 1-point series yields an undefined 1-year entry, while
the 501-row test series still yields a computed 1-year value. -/
theorem spec_C5_insufficient_window_witness :
    ("1 Year Return", (none : Option ℝ)) ∈ calculate_annualized_returns [1] ∧
    ∃ x : ℝ, ("1 Year Return", some x) ∈ calculate_annualized_returns testSeries := by
  constructor
  · exact (spec_C5_insufficient_window [1] "1 Year" 250
      (by simp [annualizedPeriods])).1 (by norm_num)
  · exact (spec_C5_insufficient_window testSeries "1 Year" 250
      (by simp [annualizedPeriods])).2 (by rw [testSeries_length]; norm_num)

/-- Closed form of the detailed k-year column: because the argument
series passed at line 384-387 is already `nav.shift(250*k)` and
`calculate_returns` shifts by `k` again, entry `i` is defined only when
`i ≥ 250*k + k` and then compares row `i` with row `i - (250*k + k)`. -/
lemma detailedYearCol_getElem? (vals : List ℝ) (k i : ℕ) :
    (detailedYearCol vals k)[i]? =
      if i < vals.length then
        some (if 250 * k + k ≤ i then
          some (((vals.getD i 0 / vals.getD (i - (250 * k + k)) 0) ^ ((1 : ℝ) / (k : ℝ)) - 1)
            * 100)
          else none)
      else none := by
  unfold detailedYearCol calcReturnsRow
  rw [seriesZip_getElem?, List.length_map, shiftO_length, shiftO_length, List.length_map,
    Nat.min_self]
  by_cases h : i < vals.length
  · rw [if_pos h, if_pos h]
    have ha := mapSome_getD vals i h
    have hb := shiftO_getD (shiftO (vals.map some) (250 * k)) k i
      (by rw [shiftO_length, List.length_map]; exact h)
    by_cases hk : k ≤ i
    · have hb2 := shiftO_getD (vals.map some) (250 * k) (i - k)
        (by rw [List.length_map]; omega)
      by_cases h2 : 250 * k ≤ i - k
      · have hc := mapSome_getD vals (i - k - 250 * k) (by omega)
        simp only [ha, hb, hb2, hc, hk, h2, if_true, ite_true, Option.some_bind,
          Option.map_some']
        rw [if_pos (by omega : 250 * k + k ≤ i),
          show i - k - 250 * k = i - (250 * k + k) by omega]
      · simp only [ha, hb, hb2, hk, h2, if_true, ite_true, if_false, ite_false,
          Option.some_bind, Option.map_none']
        rw [if_neg (by omega : ¬ 250 * k + k ≤ i)]
    · simp only [ha, hb, hk, if_false, ite_false, Option.some_bind, Option.map_none']
      rw [if_neg (by omega : ¬ 250 * k + k ≤ i)]
  · rw [if_neg h, if_neg h]

/-- Closed form of the detailed 1-year column: entry `i` compares row
`i` with row `i - 250` when `i ≥ 250`, and is undefined otherwise. -/
lemma detailedOneYearCol_getElem? (vals : List ℝ) (i : ℕ) :
    (detailedOneYearCol vals)[i]? =
      if i < vals.length then
        some (if 250 ≤ i then some ((vals.getD i 0 / vals.getD (i - 250) 0 - 1) * 100) else none)
      else none := by
  unfold detailedOneYearCol calcReturns1Row
  rw [seriesZip_getElem?, List.length_map, shiftO_length, List.length_map, Nat.min_self]
  by_cases h : i < vals.length
  · rw [if_pos h, if_pos h]
    have ha := mapSome_getD vals i h
    have hb := shiftO_getD (vals.map some) 250 i (by rw [List.length_map]; exact h)
    by_cases hk : 250 ≤ i
    · have hc := mapSome_getD vals (i - 250) (by omega)
      simp only [ha, hb, hc, hk, if_true, ite_true, Option.some_bind, Option.map_some']
    · simp only [ha, hb, hk, if_false, ite_false, Option.some_bind, Option.map_none']
  · rw [if_neg h, if_neg h]

lemma sum_eq_zero_iff_forall (l : List ℝ) (h : ∀ x ∈ l, 0 ≤ x) :
    l.sum = 0 ↔ ∀ x ∈ l, x = 0 := by
  induction l with
  | nil => simp
  | cons a t ih =>
    have ha : 0 ≤ a := h a (List.mem_cons_self a t)
    have ht : ∀ x ∈ t, 0 ≤ x := fun x hx => h x (List.mem_cons_of_mem a hx)
    rw [List.sum_cons]
    rw [add_eq_zero_iff_of_nonneg ha (List.sum_nonneg ht), ih ht]
    constructor
    · rintro ⟨h1, h2⟩ x hx
      rcases List.mem_cons.mp hx with hx | hx
      · rw [hx, h1]
      · exact h2 x hx
    · intro hall
      exact ⟨hall a (List.mem_cons_self a t), fun x hx => hall x (List.mem_cons_of_mem a hx)⟩

lemma popVar_nonneg (xs : List ℝ) : 0 ≤ popVar xs := by
  unfold popVar
  apply div_nonneg
  · apply List.sum_nonneg
    intro y hy
    obtain ⟨x, _, rfl⟩ := List.mem_map.mp hy
    positivity
  · positivity

lemma popStd_eq_zero_iff (xs : List ℝ) : popStd xs = 0 ↔ popVar xs = 0 := by
  unfold popStd
  exact Real.sqrt_eq_zero (popVar_nonneg xs)

lemma popVar_eq_zero_iff (xs : List ℝ) (hne : xs ≠ []) :
    popVar xs = 0 ↔ ∀ x ∈ xs, x = mean xs := by
  have hlen : (xs.length : ℝ) ≠ 0 := by
    simpa using hne
  unfold popVar
  rw [div_eq_zero_iff]
  have hsq : ∀ y ∈ xs.map fun x => (x - mean xs) ^ 2, 0 ≤ y := by
    intro y hy
    obtain ⟨x, _, rfl⟩ := List.mem_map.mp hy
    positivity
  constructor
  · rintro (hs | hl)
    · intro x hx
      have h0 := (sum_eq_zero_iff_forall _ hsq).mp hs ((x - mean xs) ^ 2)
        (List.mem_map_of_mem _ hx)
      have := (pow_eq_zero_iff two_ne_zero).mp h0
      linarith [sub_eq_zero.mp this]
    · exact absurd hl hlen
  · intro hall
    left
    apply (sum_eq_zero_iff_forall _ hsq).mpr
    intro y hy
    obtain ⟨x, hx, rfl⟩ := List.mem_map.mp hy
    rw [hall x hx, sub_self]
    ring

lemma mean_of_constant (xs : List ℝ) (a : ℝ) (hne : xs ≠ []) (h : ∀ x ∈ xs, x = a) :
    mean xs = a := by
  have hlen : (xs.length : ℝ) ≠ 0 := by
    simpa using hne
  unfold mean
  rw [List.sum_eq_card_nsmul xs a h, nsmul_eq_mul, mul_comm, mul_div_assoc,
    div_self hlen, mul_one]

lemma popStd_zero_iff_all_eq (xs : List ℝ) (hne : xs ≠ []) :
    popStd xs = 0 ↔ ∀ x ∈ xs, ∀ y ∈ xs, x = y := by
  rw [popStd_eq_zero_iff, popVar_eq_zero_iff xs hne]
  constructor
  · intro h x hx y hy
    rw [h x hx, h y hy]
  · intro h x hx
    exact (mean_of_constant xs x hne fun y hy => h y hy x hx).symm

/-- Field-level reading of `calculate_financial_metrics`. -/
lemma metrics_fields (fund bench : List ℝ) :
    (calculate_financial_metrics fund bench).averageRisk =
      popStd (fund.map fun x => x / 100) ∧
    (calculate_financial_metrics fund bench).sharpe =
      (if popStd (fund.map fun x => x / 100) ≠ 0 then
        some ((mean (fund.map fun x => x / 100) - RISK_FREE_RATE / 100) /
          popStd (fund.map fun x => x / 100))
      else none) ∧
    (calculate_financial_metrics fund bench).downsideRisk =
      (if 0 < ((fund.map fun x => x / 100).filter fun x => decide (x < 0)).length then
        popStd ((fund.map fun x => x / 100).filter fun x => decide (x < 0))
      else 0) ∧
    (calculate_financial_metrics fund bench).alpha =
      mean (fund.map fun x => x / 100) - mean (bench.map fun x => x / 100) *
        olsSlope (bench.map fun x => x / 100) (fund.map fun x => x / 100) :=
  ⟨rfl, rfl, rfl, rfl⟩

/-- C8: the lumpsum calculator computes `final = P * (1 + r/100)^y` in
standard mode and `final = P * (1 + (r-6)/100)^y` in inflation-adjusted
mode, with `gain = final - P` rounded to 2 decimal places only at the
gain-reporting boundary; for P=1000, r=12, y=10 the final amount is
within 0.01 of 3105.85 and the reported gain is exactly 2105.85. -/
theorem spec_C8_lumpsum :
    (∀ (P r : ℝ) (y : ℕ),
        (lumpsumStandard P r y).invested = P ∧
        (lumpsumStandard P r y).final = P * (1 + r / 100) ^ y ∧
        (lumpsumStandard P r y).gain = round2 ((lumpsumStandard P r y).final - P) ∧
        (lumpsumAdjusted P r y).invested = P ∧
        (lumpsumAdjusted P r y).final = P * (1 + (r - 6) / 100) ^ y ∧
        (lumpsumAdjusted P r y).gain = round2 ((lumpsumAdjusted P r y).final - P)) ∧
    |(lumpsumStandard 1000 12 10).final - 3105.85| < 1/100 ∧
    (lumpsumStandard 1000 12 10).gain = 2105.85 := by
  refine ⟨fun P r y => ⟨rfl, rfl, rfl, rfl, rfl, rfl⟩, ?_, ?_⟩
  · show |(1000 : ℝ) * (1 + 12 / 100) ^ 10 - 3105.85| < 1/100
    rw [abs_sub_lt_iff]
    norm_num
  · show round2 ((1000 : ℝ) * (1 + 12 / 100) ^ 10 - 1000) = 2105.85
    rw [round2_eq_div _ 210585 (by norm_num) (by norm_num)]
    norm_num

/-- C7: in inflation-adjusted SIP mode the computation signals a
recoverable error exactly when the adjusted monthly rate is zero, which
happens exactly when the nominal rate equals the assumed 6% inflation
rate; no result (and in particular no silent Infinity/NaN) is produced
in that case. -/
theorem spec_C7_sip_adjusted_div_zero : ∀ (C r : ℝ) (y : ℕ),
    (sipAdjusted C r y = Except.error () ↔ (r - 6) / 12 / 100 = 0) ∧
    ((r - 6) / 12 / 100 = 0 ↔ r = 6) := by
  intro C r y
  constructor
  · unfold sipAdjusted
    by_cases h : (r - 6) / 12 / 100 = 0
    · simp [h]
    · simp [h]
  · constructor
    · intro h
      field_simp at h
      linarith
    · intro h
      rw [h]
      norm_num

/-- C2 (amended): the SIP calculator computes `monthly_rate = r/1200`
(`(r-6)/1200` in adjusted mode), `months = 12*y`,
`invested = C*months`,
`future = C * (((1+monthly_rate)^months - 1) * (1+monthly_rate)) / monthly_rate`,
and the reported gain is `future - invested` rounded to 2 decimal
places; for C=1000, r=12, y=1 this gives invested = 12000, future
within 0.01 of 12809.33, and reported gain 809.33. -/
theorem spec_C2_sip :
    (∀ (C r : ℝ) (y : ℕ), r / 12 / 100 ≠ 0 →
        (sipStandard C r y).invested = C * (12 * (y : ℝ)) ∧
        (sipStandard C r y).final =
          C * (((1 + r / 1200) ^ (y * 12) - 1) * (1 + r / 1200)) / (r / 1200) ∧
        (sipStandard C r y).gain =
          round2 ((sipStandard C r y).final - (sipStandard C r y).invested)) ∧
    (∀ (C r : ℝ) (y : ℕ), (r - 6) / 12 / 100 ≠ 0 →
        sipAdjusted C r y = Except.ok (sipStandard C (r - 6) y)) ∧
    (sipStandard 1000 12 1).invested = 12000 ∧
    |(sipStandard 1000 12 1).final - 12809.33| < 1/100 ∧
    (sipStandard 1000 12 1).gain = 809.33 := by
  have hmr : ∀ r : ℝ, r / 12 / 100 = r / 1200 := by
    intro r
    rw [div_div]
    norm_num
  refine ⟨?_, ?_, ?_, ?_, ?_⟩
  · intro C r y _
    refine ⟨?_, ?_, rfl⟩
    · show C * ((y * 12 : ℕ) : ℝ) = C * (12 * (y : ℝ))
      push_cast
      ring
    · show C * (((1 + r / 12 / 100) ^ (y * 12) - 1) * (1 + r / 12 / 100)) / (r / 12 / 100) =
        C * (((1 + r / 1200) ^ (y * 12) - 1) * (1 + r / 1200)) / (r / 1200)
      rw [hmr]
  · intro C r y h
    unfold sipAdjusted sipStandard
    rw [if_neg h]
  · show (1000 : ℝ) * ((1 * 12 : ℕ) : ℝ) = 12000
    norm_num
  · show |(1000 : ℝ) * (((1 + 12 / 12 / 100) ^ (1 * 12) - 1) * (1 + 12 / 12 / 100)) /
        (12 / 12 / 100) - 12809.33| < 1/100
    rw [abs_sub_lt_iff]
    norm_num
  · show round2 ((1000 : ℝ) * (((1 + 12 / 12 / 100) ^ (1 * 12) - 1) * (1 + 12 / 12 / 100)) /
        (12 / 12 / 100) - 1000 * ((1 * 12 : ℕ) : ℝ)) = 809.33
    rw [round2_eq_div _ 80933 (by norm_num) (by norm_num)]
    norm_num

/-- C9 (amended): in the detailed annual-returns table, the 1-year
column at row i compares row i with row i-250 via the simple formula
(undefined when i < 250); for k in {2,3,5,10} the k-year column at row
i compares row i with row i-(250k+k) — the code passes the series
already shifted by 250k to `calculate_returns`, which shifts it by k
again — via the geometric formula with exponent 1/k, and is undefined
when i < 250k+k. -/
theorem spec_C9_detailed_returns : ∀ (vals : List ℝ) (i : ℕ),
    ((detailedOneYearCol vals)[i]? =
      if i < vals.length then
        some (if 250 ≤ i then some ((vals.getD i 0 / vals.getD (i - 250) 0 - 1) * 100) else none)
      else none) ∧
    ∀ k : ℕ, k ∈ ([2, 3, 5, 10] : List ℕ) →
      (detailedYearCol vals k)[i]? =
        if i < vals.length then
          some (if 250 * k + k ≤ i then
            some (((vals.getD i 0 / vals.getD (i - (250 * k + k)) 0) ^ ((1 : ℝ) / (k : ℝ)) - 1)
              * 100)
            else none)
        else none := fun vals i =>
  ⟨detailedOneYearCol_getElem? vals i, fun k _ => detailedYearCol_getElem? vals k i⟩

/-- C9 counterexample: on a constant 502-row series, row 501 has 501 ≥
250·2 predecessors, yet the 2-year column is undefined (`none`) there —
the code needs 250·2 + 2 = 502 predecessors — contradicting the claim
that the 2-year return at such a row is the geometric-formula value. -/
theorem spec_C9_counterexample :
    250 * 2 ≤ 501 ∧ 501 < (List.replicate 502 (1 : ℝ)).length ∧
    (detailedYearCol (List.replicate 502 (1 : ℝ)) 2)[501]? = some none := by
  refine ⟨by norm_num, by rw [List.length_replicate]; norm_num, ?_⟩
  rw [detailedYearCol_getElem?, List.length_replicate,
    if_pos (by norm_num : 501 < 502), if_neg (by norm_num : ¬ 250 * 2 + 2 ≤ 501)]

/-- C9 witness: on a constant 505-row series the theorem evaluates the
1-year entry at row 300 and the 2-year entry at row 504 to their
formula values. -/
theorem spec_C9_detailed_returns_witness :
    (detailedOneYearCol (List.replicate 505 (2 : ℝ)))[300]? =
      some (some (((2 : ℝ) / 2 - 1) * 100)) ∧
    (detailedYearCol (List.replicate 505 (2 : ℝ)) 2)[504]? =
      some (some ((((2 : ℝ) / 2) ^ ((1 : ℝ) / ((2 : ℕ) : ℝ)) - 1) * 100)) := by
  constructor
  · rw [(spec_C9_detailed_returns (List.replicate 505 (2 : ℝ)) 300).1, List.length_replicate,
      if_pos (by norm_num : 300 < 505), if_pos (by norm_num : 250 ≤ 300)]
    rw [List.getD_eq_getElem?_getD, List.getD_eq_getElem?_getD,
      List.getElem?_replicate_of_lt (by norm_num : 300 < 505),
      List.getElem?_replicate_of_lt (by norm_num : 300 - 250 < 505)]
    rfl
  · rw [(spec_C9_detailed_returns (List.replicate 505 (2 : ℝ)) 504).2 2 (by simp),
      List.length_replicate, if_pos (by norm_num : 504 < 505),
      if_pos (by norm_num : 250 * 2 + 2 ≤ 504)]
    rw [List.getD_eq_getElem?_getD, List.getD_eq_getElem?_getD,
      List.getElem?_replicate_of_lt (by norm_num : 504 < 505),
      List.getElem?_replicate_of_lt (by norm_num : 504 - (250 * 2 + 2) < 505)]
    rfl

/-- C3: the Sharpe ratio is `(average_return - risk_free_rate_decimal) /
average_risk` whenever the average risk is nonzero, and it is undefined
(NaN, modelled `none`) exactly when the average risk is zero; a zero
average risk produces the record (with an undefined ratio) rather than
an error. -/
theorem spec_C3_sharpe : ∀ fund bench : List ℝ,
    ((calculate_financial_metrics fund bench).sharpe = none ↔
      (calculate_financial_metrics fund bench).averageRisk = 0) ∧
    ((calculate_financial_metrics fund bench).averageRisk ≠ 0 →
      (calculate_financial_metrics fund bench).sharpe =
        some ((mean (fund.map fun x => x / 100) - RISK_FREE_RATE / 100) /
          (calculate_financial_metrics fund bench).averageRisk)) := by
  intro fund bench
  obtain ⟨hrisk, hsharpe, -, -⟩ := metrics_fields fund bench
  rw [hrisk, hsharpe]
  constructor
  · by_cases h : popStd (fund.map fun x => x / 100) = 0
    · simp [h]
    · simp [h]
  · intro h
    rw [if_pos h]

/-- C3 witness: for fund percentages [10, 30] the average risk is 0.1 ≠ 0
and the theorem evaluates the Sharpe ratio to (0.2 - 0.067)/0.1 = 1.33. -/
theorem spec_C3_sharpe_witness :
    (calculate_financial_metrics [10, 30] [1, 2]).sharpe = some 1.33 := by
  have hvar : popVar (([10, 30] : List ℝ).map fun x => x / 100) = (1 / 10) ^ 2 := by
    unfold popVar mean
    norm_num
  have hstd : popStd (([10, 30] : List ℝ).map fun x => x / 100) = 1 / 10 := by
    unfold popStd
    rw [hvar]
    exact Real.sqrt_sq (by norm_num)
  have h := (spec_C3_sharpe [10, 30] [1, 2]).2
    (by rw [(metrics_fields [10, 30] [1, 2]).1, hstd]; norm_num)
  rw [h, (metrics_fields [10, 30] [1, 2]).1, hstd]
  unfold mean RISK_FREE_RATE
  norm_num

/-- C4 (amended): with aligned same-length return sets of at least 2
points, the metrics record's Alpha is
`average_return - benchmark_return * slope`, where `slope` is the OLS
slope of fund decimal returns regressed on benchmark decimal returns;
the value is reported as a decimal (it is NOT multiplied by 100 in the
output record, unlike the average and benchmark returns). -/
theorem spec_C4_alpha : ∀ fund bench : List ℝ,
    fund.length = bench.length → 2 ≤ fund.length →
    (calculate_financial_metrics fund bench).alpha =
      mean (fund.map fun x => x / 100) - mean (bench.map fun x => x / 100) *
        olsSlope (bench.map fun x => x / 100) (fund.map fun x => x / 100) :=
  fun fund bench _ _ => (metrics_fields fund bench).2.2.2

/-- C4 witness: the theorem applies at fund [10, 20], benchmark [10, 30]
(two aligned points). -/
theorem spec_C4_alpha_witness :
    ([10, 20] : List ℝ).length = ([10, 30] : List ℝ).length ∧
    2 ≤ ([10, 20] : List ℝ).length ∧
    (calculate_financial_metrics [10, 20] [10, 30]).alpha =
      mean (([10, 20] : List ℝ).map fun x => x / 100) -
        mean (([10, 30] : List ℝ).map fun x => x / 100) *
          olsSlope (([10, 30] : List ℝ).map fun x => x / 100)
            (([10, 20] : List ℝ).map fun x => x / 100) :=
  ⟨rfl, by norm_num, spec_C4_alpha [10, 20] [10, 30] rfl (by norm_num)⟩

/-- C4 counterexample: at fund [10, 20], benchmark [10, 30] the record's
Alpha is 1/20 = 0.05 (a decimal), while the claimed percentage form
`(average_return - benchmark_return * slope) * 100` is 5; they differ. -/
theorem spec_C4_counterexample :
    (calculate_financial_metrics [10, 20] [10, 30]).alpha = 1 / 20 ∧
    100 * (mean (([10, 20] : List ℝ).map fun x => x / 100) -
      mean (([10, 30] : List ℝ).map fun x => x / 100) *
        olsSlope (([10, 30] : List ℝ).map fun x => x / 100)
          (([10, 20] : List ℝ).map fun x => x / 100)) = 5 ∧
    (1 / 20 : ℝ) ≠ 5 := by
  have e : mean (([10, 20] : List ℝ).map fun x => x / 100) -
      mean (([10, 30] : List ℝ).map fun x => x / 100) *
        olsSlope (([10, 30] : List ℝ).map fun x => x / 100)
          (([10, 20] : List ℝ).map fun x => x / 100) = 1 / 20 := by
    unfold olsSlope mean
    norm_num [List.zip_cons_cons, List.zip_nil_right]
  refine ⟨?_, ?_, by norm_num⟩
  · rw [(metrics_fields [10, 20] [10, 30]).2.2.2, e]
  · rw [e]
    norm_num

/-- C6 (amended): the downside risk is the population standard deviation
of the negative subset of fund decimal returns (0 when that subset is
empty), and it is 0 exactly when the negative subset has no two distinct
values — i.e. when there is no negative return or all negative returns
are equal (in particular a single negative return gives 0). -/
theorem spec_C6_downside : ∀ fund bench : List ℝ,
    ((calculate_financial_metrics fund bench).downsideRisk =
      (if 0 < ((fund.map fun x => x / 100).filter fun x => decide (x < 0)).length then
        popStd ((fund.map fun x => x / 100).filter fun x => decide (x < 0))
      else 0)) ∧
    ((calculate_financial_metrics fund bench).downsideRisk = 0 ↔
      ∀ x ∈ (fund.map fun x => x / 100).filter fun x => decide (x < 0),
        ∀ y ∈ (fund.map fun x => x / 100).filter fun x => decide (x < 0), x = y) := by
  intro fund bench
  obtain ⟨-, -, hdr, -⟩ := metrics_fields fund bench
  refine ⟨hdr, ?_⟩
  rw [hdr]
  by_cases hn : 0 < ((fund.map fun x => x / 100).filter fun x => decide (x < 0)).length
  · rw [if_pos hn]
    exact popStd_zero_iff_all_eq _ (by
      intro hcontra
      rw [hcontra] at hn
      simp at hn)
  · rw [if_neg hn]
    have hnil : ((fund.map fun x => x / 100).filter fun x => decide (x < 0)) = [] := by
      rcases List.eq_nil_or_concat ((fund.map fun x => x / 100).filter fun x => decide (x < 0))
        with h | ⟨l, a, h⟩
      · exact h
      · exfalso
        apply hn
        rw [h]
        simp
    rw [hnil]
    simp

/-- C6 counterexample: for fund percentages [10, -5, 8] (the spec's own
scenario) the negative subset is the singleton [-0.05], whose population
standard deviation is 0 — so the downside risk is 0 although a negative
input return exists, refuting "downside risk == 0 iff no input return
is negative". -/
theorem spec_C6_counterexample :
    (calculate_financial_metrics [10, -5, 8] [7, -2, 6]).downsideRisk = 0 ∧
    ¬ ∀ x ∈ ([10, -5, 8] : List ℝ).map fun x => x / 100, 0 ≤ x := by
  have hneg : (([10, -5, 8] : List ℝ).map fun x => x / 100).filter
      (fun x => decide (x < 0)) = [(-5 : ℝ) / 100] := by
    simp only [List.map_cons, List.map_nil, List.filter_cons, List.filter_nil,
      decide_eq_true_eq]
    rw [if_neg (by norm_num), if_pos (by norm_num), if_neg (by norm_num)]
  have hvar : popVar [(-5 : ℝ) / 100] = 0 := by
    unfold popVar mean
    norm_num
  have hstd : popStd [(-5 : ℝ) / 100] = 0 := by
    unfold popStd
    rw [hvar]
    exact Real.sqrt_zero
  constructor
  · rw [(metrics_fields [10, -5, 8] [7, -2, 6]).2.2.1, hneg, if_pos (by norm_num), hstd]
  · intro hall
    have := hall ((-5 : ℝ) / 100) (List.mem_map.mpr ⟨-5, by simp, rfl⟩)
    norm_num at this

lemma none_mem_map_div (xs : List (Option ℝ)) :
    none ∈ xs.map (Option.map fun v => v / 100) ↔ none ∈ xs := by
  constructor
  · intro h
    obtain ⟨a, ha, hma⟩ := List.mem_map.mp h
    rwa [Option.map_eq_none'.mp hma] at ha
  · intro h
    exact List.mem_map.mpr ⟨none, h, rfl⟩

lemma validPairs_of_no_none (a b : List (Option ℝ)) (hlen : a.length = b.length)
    (ha : none ∉ a) (hb : none ∉ b) : validPairs a b = a.length := by
  unfold validPairs
  rw [List.filter_eq_self.mpr, List.length_zip, hlen, Nat.min_self]
  intro p hp
  obtain ⟨p1, p2⟩ := p
  obtain ⟨h1, h2⟩ := List.of_mem_zip hp
  rw [Bool.and_eq_true]
  constructor
  · exact Option.isSome_iff_ne_none.mpr fun he => ha (he ▸ h1)
  · exact Option.isSome_iff_ne_none.mpr fun he => hb (he ▸ h2)

/-- When `linregressSlope` returns a numeric (non-NaN) slope, both
inputs were NaN-free, aligned, and held at least two points. -/
lemma linregressSlope_ok_some (x y : List (Option ℝ)) (s : ℝ)
    (h : linregressSlope x y = Except.ok (some s)) :
    none ∉ x ∧ none ∉ y ∧ 2 ≤ x.length ∧ x.length = y.length := by
  unfold linregressSlope at h
  by_cases h1 : x.length ≠ y.length
  · rw [if_pos h1] at h
    exact absurd h (by simp)
  · rw [if_neg h1] at h
    by_cases h2 : x.length = 0
    · rw [if_pos h2] at h
      exact absurd h (by simp)
    · rw [if_neg h2] at h
      by_cases h3 : none ∉ x ∧ 1 < x.length ∧
          ∀ a ∈ x.reduceOption, ∀ b ∈ x.reduceOption, a = b
      · rw [if_pos h3] at h
        exact absurd h (by simp)
      · rw [if_neg h3] at h
        by_cases h4 : none ∈ x ∨ none ∈ y ∨ x.length = 1
        · rw [if_pos h4] at h
          simp at h
        · rw [if_neg h4] at h
          push_neg at h4
          push_neg at h1
          exact ⟨h4.1, h4.2.1, by omega, h1⟩

lemma bind_map_none (x y : Option ℝ) (g : ℝ → ℝ → ℝ → ℝ) :
    (x.bind fun a => y.bind fun m => Option.map (g a m) none) = none := by
  cases x with
  | none => rfl
  | some a =>
    cases y with
    | none => rfl
    | some m => rfl

/-- C10: with mismatched input lengths the metrics computation fails
(scipy's `linregress` raises an uncaught `ValueError`) instead of
producing a record; with aligned inputs but fewer than 2 valid (non-NaN)
paired values it either fails in the same way or produces a record whose
Alpha is undefined (`none`) — never a silently computed numeric Alpha. -/
theorem spec_C10_metrics_errors : ∀ fund bench : List (Option ℝ),
    (fund.length ≠ bench.length →
      calculate_financial_metrics_opt fund bench = Except.error ()) ∧
    (fund.length = bench.length → validPairs fund bench < 2 →
      calculate_financial_metrics_opt fund bench = Except.error () ∨
      ∃ m : NanMetrics, calculate_financial_metrics_opt fund bench = Except.ok m ∧
        m.alpha = none) := by
  intro fund bench
  constructor
  · intro hlen
    have hx : linregressSlope (bench.map (Option.map fun v => v / 100))
        (fund.map (Option.map fun v => v / 100)) = Except.error () := by
      unfold linregressSlope
      rw [if_pos (by
        rw [List.length_map, List.length_map]
        exact fun h => hlen h.symm)]
    simp only [calculate_financial_metrics_opt]
    rw [hx]
  · intro hlen hvp
    cases hok : linregressSlope (bench.map (Option.map fun v => v / 100))
        (fund.map (Option.map fun v => v / 100)) with
    | error e =>
      left
      cases e
      simp only [calculate_financial_metrics_opt]
      rw [hok]
    | ok slope =>
      right
      cases slope with
      | some s =>
        exfalso
        obtain ⟨hnx, hny, hlen2, -⟩ := linregressSlope_ok_some _ _ _ hok
        rw [none_mem_map_div] at hnx hny
        have hvyes : validPairs fund bench = fund.length :=
          validPairs_of_no_none fund bench hlen hny hnx
        rw [List.length_map] at hlen2
        omega
      | none =>
        have heq : ∃ m : NanMetrics, calculate_financial_metrics_opt fund bench =
            Except.ok m ∧
            m.alpha = ((nanMean (fund.map (Option.map fun v => v / 100))).bind fun a =>
              (nanMean (bench.map (Option.map fun v => v / 100))).bind fun mm =>
                Option.map (fun s => a - mm * s) none) := by
          simp only [calculate_financial_metrics_opt]
          rw [hok]
          exact ⟨_, rfl, rfl⟩
        obtain ⟨m, hm, halpha⟩ := heq
        refine ⟨m, hm, ?_⟩
        rw [halpha]
        exact bind_map_none _ _ _

/-- C10 witness: a 1-vs-2 length mismatch fails, and aligned inputs
[NaN, 1] vs [2, 3] (one valid pair) yield a failure or an undefined
Alpha. -/
theorem spec_C10_metrics_errors_witness :
    calculate_financial_metrics_opt [some 1] [some 2, some 3] = Except.error () ∧
    (calculate_financial_metrics_opt [none, some 1] [some 2, some 3] = Except.error () ∨
      ∃ m : NanMetrics, calculate_financial_metrics_opt [none, some 1] [some 2, some 3] =
        Except.ok m ∧ m.alpha = none) :=
  ⟨(spec_C10_metrics_errors [some 1] [some 2, some 3]).1 (by simp),
    (spec_C10_metrics_errors [none, some 1] [some 2, some 3]).2 (by simp)
      (by norm_num [validPairs, List.zip_cons_cons, List.zip_nil_right])⟩

/-- C2 counterexample: at C=1000, r=12, y=1 the reported gain (809.33,
rounded to 2 decimal places by the code) differs from the exact
`future - invested`, and the future value is more than 0.05 away from
the claimed 12809.41 (it is 12809.328...). -/
theorem spec_C2_counterexample :
    (sipStandard 1000 12 1).gain ≠
      (sipStandard 1000 12 1).final - (sipStandard 1000 12 1).invested ∧
    0.05 < |(sipStandard 1000 12 1).final - 12809.41| := by
  constructor
  · show round2 ((1000 : ℝ) * (((1 + 12 / 12 / 100) ^ (1 * 12) - 1) * (1 + 12 / 12 / 100)) /
        (12 / 12 / 100) - 1000 * ((1 * 12 : ℕ) : ℝ)) ≠
        (1000 : ℝ) * (((1 + 12 / 12 / 100) ^ (1 * 12) - 1) * (1 + 12 / 12 / 100)) /
        (12 / 12 / 100) - 1000 * ((1 * 12 : ℕ) : ℝ)
    rw [round2_eq_div _ 80933 (by norm_num) (by norm_num)]
    norm_num
  · show (0.05 : ℝ) < |(1000 : ℝ) * (((1 + 12 / 12 / 100) ^ (1 * 12) - 1) * (1 + 12 / 12 / 100)) /
        (12 / 12 / 100) - 12809.41|
    rw [lt_abs]
    right
    norm_num

/-- C2 witness: the hypotheses of the quantified parts of the C2 theorem
hold at C=1000, r=12, y=1, and the theorem yields the invested amount
there. -/
theorem spec_C2_sip_witness :
    ((12 : ℝ) / 12 / 100 ≠ 0) ∧ ((12 - 6 : ℝ) / 12 / 100 ≠ 0) ∧
    (sipStandard 1000 12 1).invested = 1000 * (12 * ((1 : ℕ) : ℝ)) ∧
    sipAdjusted 1000 12 1 = Except.ok (sipStandard 1000 (12 - 6) 1) :=
  ⟨by norm_num, by norm_num, (spec_C2_sip.1 1000 12 1 (by norm_num)).1,
    spec_C2_sip.2.1 1000 12 1 (by norm_num)⟩

end

end MFTool
